import Mathlib

/-!
Verification of the backup orchestration pipeline of `node-mongodb-backup-s3`
(src/index.ts), as a shallow embedding.

Modelling conventions:
* JavaScript string truthiness is modelled on `String` with the empty string
  as the only falsy value; `a || b` on strings becomes `jsOr`.
* Optional JS values (`null`/`undefined`) become `Option`; the coalescing
  `x || null` (which also maps the empty string to `null`) becomes `jsOrNull`.
* The `mongodump` command string built by `createBackup` is embedded as its
  list of whitespace-separated tokens (`createBackupCommand`); the source
  builds the same tokens by template interpolation into one string.
* External collaborators (the `mongodump` subprocess, the AWS S3 client, the
  `mongodb-uri` parser, the clock, `process.mainModule` root lookup and the
  OS temp dir) are supplied by an explicit environment `Env`, and the side
  effects the pipeline requests from them are recorded in an `Effect` trace.
* The staging directory is modelled as its listing, a `List DirEntry`
  (name plus the `lstatSync(...).isFile()` bit), in `readdirSync` order.
-/

namespace MongodbBackupS3

/-- JS truthiness of a string: only the empty string is falsy. -/
def strTruthy (s : String) : Bool := s != ""

/-- JS `a || b` for strings: `b` when `a` is falsy (empty). -/
def jsOr (a b : String) : String := if a = "" then b else a

/-- JS `x || null` for a nullable string: `null` stays `null` and the empty
string collapses to `null`. -/
def jsOrNull : Option String → Option String
  | none => none
  | some s => if s = "" then none else some s

/-- The structured `mongodb` configuration shape (interface `MongoDBConfig`).
Fields the caller may omit are modelled by their falsy value (empty string /
`false` / `0`), matching how the code only ever inspects them for truthiness. -/
structure MongoDBConfig where
  database : String
  host : String
  username : String
  password : String
  port : Nat
  ssl : Bool
  authenticationDatabase : String
deriving DecidableEq

/-- One `host`/`port` pair of a canonical connection. -/
structure HostPort where
  host : String
  port : Nat
deriving DecidableEq

/-- The canonical connection descriptor (interface `MongoDBInstance`):
both input shapes collapse to this. -/
structure MongoDBInstance where
  scheme : String
  username : Option String
  password : Option String
  database : String
  ssl : Bool
  authenticationDatabase : String
  hosts : List HostPort
deriving DecidableEq

/-- The S3 storage configuration (interface `S3Config`); possibly-omitted
`accessPerm` is modelled by the empty string (its falsy value). -/
structure S3Config where
  accessKey : String
  secretKey : String
  region : String
  accessPerm : String
  bucketName : String
deriving DecidableEq

/-- The `mongodb` field of the configuration: a structured object or a
connection-URI string. -/
inductive MongoValue where
  | obj (c : MongoDBConfig)
  | uri (s : String)
deriving DecidableEq

/-- JS truthiness of the `mongodb` field: an object is always truthy, a
string is truthy iff non-empty. -/
def MongoValue.truthy : MongoValue → Bool
  | .obj _ => true
  | .uri s => strTruthy s

/-- The top-level configuration (interface `Config`). -/
structure Config where
  keepLocalBackups : Bool
  noOfLocalBackups : Nat
  timezoneOffset : Int
  mongodb : MongoValue
  s3 : S3Config
deriving DecidableEq

/-- `isValidConfig` from src/index.ts: the S3 fields must all be truthy and
the `mongodb` field must be a truthy string or an object with truthy
`database`, `host` and `port` (so port `0`, being falsy, fails the check). -/
def isValidConfig (config : Config) : Bool :=
  if config.mongodb.truthy && strTruthy config.s3.accessKey
      && strTruthy config.s3.secretKey && strTruthy config.s3.region
      && strTruthy config.s3.bucketName then
    match config.mongodb with
    | .obj m => strTruthy m.database && strTruthy m.host && (m.port != 0)
    | .uri _ => true
  else false

/-- The parameter object passed to `s3Instance.upload` in `uploadFile`
(`uploadParams` in the source). The put-object API's optional ACL field is
carried as an `Option`; the source object literal has no `ACL` key, so it is
`none`. `bodyPath` records the path of the file streamed as `Body`. -/
structure UploadParams where
  bucket : String
  key : String
  bodyPath : String
  acl : Option String
deriving DecidableEq

/-- The parameter object passed to `s3Instance.createBucket` in `uploadFile`
(`bucketParams` in the source). -/
structure BucketParams where
  bucket : String
  acl : String
  locationConstraint : String
deriving DecidableEq

/-- The `uploadParams` object built by `createS3Instance(...).uploadFile`:
bucket from the config, key = the file name, body = a stream of the local
file, and no ACL key. -/
def uploadParams (s3Config : S3Config) (fullFilePath fileName : String) : UploadParams :=
  { bucket := s3Config.bucketName
    key := fileName
    bodyPath := fullFilePath
    acl := none }

/-- The `bucketParams` object built by `createS3Instance(...).uploadFile`:
`ACL: s3Config.accessPerm || "private"` and the region as location
constraint. -/
def bucketParams (s3Config : S3Config) : BucketParams :=
  { bucket := s3Config.bucketName
    acl := jsOr s3Config.accessPerm "private"
    locationConstraint := s3Config.region }

/-- Rendering of a possibly-`null` host into the command template:
`${null}` prints as "null". In `createBackup`, `host = mongodb.hosts[0].host
|| null`. -/
def hostToken (h : String) : String := if h = "" then "null" else h

/-- Rendering of `port = mongodb.hosts[0].port || null` into the command
template: port `0` is falsy, so it renders as "null". -/
def portToken (p : Nat) : String := if p = 0 then "null" else toString p

/-- The `mongodump` command built by `createBackup`, as its list of
whitespace-separated tokens. The three command templates of the source are
reproduced: the default one, the one for username and password both present,
and the one for username only; then the `--ssl` and
`--authenticationDatabase` suffixes. `mongodb.hosts[0]` is the head of the
host list (every constructed instance has exactly one host). -/
def createBackupCommand (mongodb : MongoDBInstance) (fullFilePath : String) :
    List String :=
  let database := mongodb.database
  let password := jsOrNull mongodb.password
  let username := jsOrNull mongodb.username
  let first := mongodb.hosts.headD ⟨"", 0⟩
  let host := hostToken first.host
  let port := portToken first.port
  let command :=
    match username, password with
    | some u, some p =>
        ["mongodump", "-h", host, "--port=" ++ port, "-d", database,
         "-p", p, "-u", u, "--quiet", "--gzip", "--archive=" ++ fullFilePath]
    | some u, none =>
        ["mongodump", "-h", host, "--port=" ++ port, "-d", database,
         "-u", u, "--quiet", "--gzip", "--archive=" ++ fullFilePath]
    | none, _ =>
        ["mongodump", "-h", host, "--port=" ++ port, "-d", database,
         "--quiet", "--gzip", "--archive=" ++ fullFilePath]
  command ++ (if mongodb.ssl then ["--ssl"] else [])
    ++ (if strTruthy mongodb.authenticationDatabase
        then ["--authenticationDatabase=" ++ mongodb.authenticationDatabase]
        else [])

/-- One entry of the staging directory listing: the name `readdirSync`
returns and whether `lstatSync(...).isFile()` holds for it. -/
structure DirEntry where
  name : String
  isFile : Bool
deriving DecidableEq

/-- A side effect the pipeline requests from the filesystem, the subprocess
runner or the S3 client. -/
inductive Effect where
  | mkdir (path : String)
  | spawn (command : List String)
  | openRead (path : String)
  | createBucket (params : BucketParams)
  | putObject (params : UploadParams)
  | readdir (path : String)
  | unlink (path : String)
deriving DecidableEq

/-- The run environment: the external collaborators' behaviour for this run.
`parseUri` stands for the `mongodb-uri` library, `timestamp` for the
`moment` clock reading already formatted, `projectRoot` for the
`process.mainModule` lookup, `tmpdir` for the OS temp dir.
`dumpSucceeds`/`readSucceeds`/`uploadSucceeds` are the outcomes of the
subprocess, the local file stream and the S3 upload; `dumpWritesArtifact`
says whether a failing dump still left a (partial) archive file behind. -/
structure Env where
  projectRoot : String
  tmpdir : String
  timestamp : String
  parseUri : String → MongoDBInstance
  backupsFolderExists : Bool
  initialDir : List DirEntry
  dumpSucceeds : Bool
  dumpWritesArtifact : Bool
  readSucceeds : Bool
  uploadSucceeds : Bool

/-- Model of `path.resolve(dir, name)` for a directory and a relative name. -/
def pathResolve (dir name : String) : String := dir ++ "/" ++ name

/-- `getFileName`: the generated artifact name
`<database>_<timestamp>.gz`; the `moment` formatting of `currentTime` is the
environment's `timestamp` string. -/
def getFileName (database timestamp : String) : String :=
  database ++ "_" ++ timestamp ++ ".gz"

/-- `getBackUpPath`: the fixed `backups` folder under the project root in
retained mode, the OS temp dir otherwise. -/
def getBackUpPath (config : Config) (env : Env) : String :=
  if config.keepLocalBackups then pathResolve env.projectRoot "backups"
  else env.tmpdir

/-- `getMongodbConnectionInstance`: a URI string is handed to the external
parser; a structured object is mapped field-by-field, `username || null` and
`password || null` collapsing falsy values to absent, with the single
host/port pair wrapped in a one-element list. -/
def getMongodbConnectionInstance (config : Config) (env : Env) : MongoDBInstance :=
  match config.mongodb with
  | .uri s => env.parseUri s
  | .obj m =>
    { scheme := "mongodb"
      username := jsOrNull (some m.username)
      password := jsOrNull (some m.password)
      database := m.database
      ssl := m.ssl
      authenticationDatabase := m.authenticationDatabase
      hosts := [⟨m.host, m.port⟩] }

/-- The artifact name this run will generate (`fileName` in
`backupAndUpload`). -/
def plannedFileName (config : Config) (env : Env) : String :=
  getFileName (getMongodbConnectionInstance config env).database env.timestamp

/-- Effect of writing a file into a directory listing: replaces any entry of
the same name and appends a plain-file entry. -/
def writeFile (dir : List DirEntry) (name : String) : List DirEntry :=
  dir.filter (fun e => e.name != name) ++ [⟨name, true⟩]

/-- Count of plain files in a directory listing. -/
def countFiles (dir : List DirEntry) : Nat :=
  (dir.filter (fun e => e.isFile)).length

/-- `cleanFs`: in ephemeral mode, unlink the artifact; in retained mode with
a truthy cap, list the plain files, reverse the listing order, drop the
first `noOfLocalBackups` names and unlink the remainder; with a falsy cap
(0), do nothing. Returns the requested effects and the resulting listing. -/
def cleanFs (config : Config) (fileName backUpPath : String)
    (dir : List DirEntry) : List Effect × List DirEntry :=
  if ¬ config.keepLocalBackups then
    ([Effect.unlink (pathResolve backUpPath fileName)],
     dir.filter (fun e => e.name != fileName))
  else if config.noOfLocalBackups ≠ 0 then
    let oldBackupNames :=
      (((dir.filter (fun e => e.isFile)).map (fun e => e.name)).reverse).drop
        config.noOfLocalBackups
    (Effect.readdir backUpPath ::
       oldBackupNames.map (fun n => Effect.unlink (pathResolve backUpPath n)),
     dir.filter (fun e => !(oldBackupNames.contains e.name)))
  else ([], dir)

/-- `prepareFolderStructure`: create the `backups` folder when retaining
locally and it does not exist yet. -/
def prepareFolderStructure (config : Config) (env : Env) : List Effect :=
  if config.keepLocalBackups && !env.backupsFolderExists then
    [Effect.mkdir (pathResolve env.projectRoot "backups")]
  else []

/-- The staging directory listing right after the dump stage: a successful
dump wrote the artifact; a failed dump wrote it only when the environment
says the subprocess got that far. -/
def dumpedDir (config : Config) (env : Env) : List DirEntry :=
  if env.dumpSucceeds || env.dumpWritesArtifact then
    writeFile env.initialDir (plannedFileName config env)
  else env.initialDir

/-- Outcome of one `backupAndUpload` run: the settled promise, the effect
trace, and the staging directory listing afterwards. -/
structure RunResult where
  result : Except String Unit
  effects : List Effect
  finalDir : List DirEntry

/-- `backupAndUpload`: validate, resolve the connection, plan the path,
prepare folders, dump, upload, clean up — each later stage only after the
earlier one succeeded, the first failure short-circuiting the rest. An
invalid configuration rejects with `Invalid Configuration` before any
effect. -/
def backupAndUpload (config : Config) (env : Env) : RunResult :=
  if isValidConfig config then
    let mongo := getMongodbConnectionInstance config env
    let backUpPath := getBackUpPath config env
    let fileName := getFileName mongo.database env.timestamp
    let fullFilePath := pathResolve backUpPath fileName
    let prep := prepareFolderStructure config env
    let command := createBackupCommand mongo fullFilePath
    let afterDump := dumpedDir config env
    if ¬ env.dumpSucceeds then
      ⟨Except.error "dump failed", prep ++ [Effect.spawn command], afterDump⟩
    else if ¬ env.readSucceeds then
      ⟨Except.error "file read failed",
       prep ++ [Effect.spawn command, Effect.openRead fullFilePath], afterDump⟩
    else if ¬ env.uploadSucceeds then
      ⟨Except.error "upload failed",
       prep ++ [Effect.spawn command, Effect.openRead fullFilePath,
         Effect.createBucket (bucketParams config.s3),
         Effect.putObject (uploadParams config.s3 fullFilePath fileName)],
       afterDump⟩
    else
      let cleaned := cleanFs config fileName backUpPath afterDump
      ⟨Except.ok (),
       prep ++ [Effect.spawn command, Effect.openRead fullFilePath,
         Effect.createBucket (bucketParams config.s3),
         Effect.putObject (uploadParams config.s3 fullFilePath fileName)]
         ++ cleaned.1,
       cleaned.2⟩
  else ⟨Except.error "Invalid Configuration", [], env.initialDir⟩

/-! Helper lemmas. -/

/-- Filtering a list through non-membership of itself yields nothing. -/
lemma filter_not_contains_self (d : List String) :
    d.filter (fun x => !(d.contains x)) = [] := by
  refine List.filter_eq_nil_iff.mpr (fun a ha => ?_)
  simp [List.contains, List.elem_iff, ha]

/-- A list filtered through non-membership of one of its suffixes has at
most as many elements as the prefix. -/
lemma length_filter_not_contains_suffix (t d : List String) :
    ((t ++ d).filter (fun x => !(d.contains x))).length ≤ t.length := by
  rw [List.filter_append, List.length_append, filter_not_contains_self,
    List.length_nil, Nat.add_zero]
  exact List.length_filter_le _ _

/-- Keeping only the elements outside the reversed list's `N`-drop leaves at
most `N` elements. -/
lemma length_filter_not_contains_drop_reverse (l : List String) (N : Nat) :
    (l.filter (fun x => !((l.reverse.drop N).contains x))).length ≤ N := by
  have hlen : (l.filter (fun x => !((l.reverse.drop N).contains x))).length
      = (l.reverse.filter (fun x => !((l.reverse.drop N).contains x))).length := by
    rw [List.filter_reverse, List.length_reverse]
  rw [hlen]
  have hsplit := length_filter_not_contains_suffix (l.reverse.take N) (l.reverse.drop N)
  rw [List.take_append_drop] at hsplit
  exact hsplit.trans (by simp)

/-- Filtering a directory listing through a name predicate keeps as many
plain files as the predicate keeps names of plain files, and the latter are
bounded through `length_filter_not_contains_drop_reverse`. -/
lemma countFiles_filter_drop (dir : List DirEntry) (N : Nat) :
    countFiles (dir.filter (fun e =>
      !((((dir.filter (fun e => e.isFile)).map (fun e => e.name)).reverse.drop
          N).contains e.name))) ≤ N := by
  set names := (dir.filter (fun e => e.isFile)).map (fun e => e.name) with hnames
  set p : String → Bool := fun x => !((names.reverse.drop N).contains x) with hp
  have hcomm : countFiles (dir.filter (fun e => p e.name))
      = ((dir.filter (fun e => e.isFile)).filter (fun e => p e.name)).length := by
    unfold countFiles
    rw [List.filter_filter, List.filter_filter]
    congr 1
    refine List.filter_congr (fun e _ => Bool.and_comm _ _)
  have hbridge : ((dir.filter (fun e => e.isFile)).filter (fun e => p e.name)).length
      = (names.filter p).length := by
    rw [hnames, List.filter_map]
    simp [Function.comp]
  rw [hcomm, hbridge, hp]
  exact length_filter_not_contains_drop_reverse names N

/-- `cleanFs` in retained mode with a nonzero cap keeps exactly the entries
whose name is not among the names dropped beyond the cap. -/
lemma cleanFs_keep_cap (config : Config) (fileName backUpPath : String)
    (dir : List DirEntry) (hkeep : config.keepLocalBackups = true)
    (hcap : config.noOfLocalBackups ≠ 0) :
    (cleanFs config fileName backUpPath dir).2
      = dir.filter (fun e =>
          !((((dir.filter (fun e => e.isFile)).map (fun e => e.name)).reverse.drop
              config.noOfLocalBackups).contains e.name)) := by
  simp only [cleanFs, hkeep, not_true_eq_false, if_neg, if_pos hcap]
  simp [hcap]

/-- A run's promise resolves exactly when the configuration is valid and the
dump, the local read and the upload all succeed. -/
lemma result_ok_iff (config : Config) (env : Env) :
    (backupAndUpload config env).result = Except.ok () ↔
      (isValidConfig config = true ∧ env.dumpSucceeds = true ∧
       env.readSucceeds = true ∧ env.uploadSucceeds = true) := by
  constructor
  · intro h
    by_cases hv : isValidConfig config = true
    · by_cases hd : env.dumpSucceeds = true
      · by_cases hr : env.readSucceeds = true
        · by_cases hu : env.uploadSucceeds = true
          · exact ⟨hv, hd, hr, hu⟩
          · simp [backupAndUpload, hv, hd, hr, hu] at h
        · simp [backupAndUpload, hv, hd, hr] at h
      · simp [backupAndUpload, hv, hd] at h
    · simp [backupAndUpload, hv] at h
  · rintro ⟨hv, hd, hr, hu⟩
    simp [backupAndUpload, hv, hd, hr, hu]

/-- After a resolving run the staging directory is what `cleanFs` left of
the post-dump listing. -/
lemma finalDir_of_ok (config : Config) (env : Env)
    (h : (backupAndUpload config env).result = Except.ok ()) :
    (backupAndUpload config env).finalDir =
      (cleanFs config (plannedFileName config env) (getBackUpPath config env)
        (dumpedDir config env)).2 := by
  obtain ⟨hv, hd, hr, hu⟩ := (result_ok_iff config env).mp h
  simp [backupAndUpload, hv, hd, hr, hu, plannedFileName]

/-- In retained mode, `cleanFs` deletes nothing when the cap is absent
(zero) or the plain files do not exceed it. -/
lemma cleanFs_keep_nodelete (config : Config) (fileName backUpPath : String)
    (dir : List DirEntry) (hkeep : config.keepLocalBackups = true)
    (h : config.noOfLocalBackups = 0 ∨ countFiles dir ≤ config.noOfLocalBackups) :
    (cleanFs config fileName backUpPath dir).2 = dir := by
  rcases h with h0 | hle
  · simp [cleanFs, hkeep, h0]
  · by_cases h0 : config.noOfLocalBackups = 0
    · simp [cleanFs, hkeep, h0]
    · rw [cleanFs_keep_cap config fileName backUpPath dir hkeep h0]
      have hnil : (((dir.filter (fun e => e.isFile)).map (fun e => e.name)).reverse.drop
          config.noOfLocalBackups) = [] := by
        apply List.drop_eq_nil_of_le
        simpa [countFiles] using hle
      rw [hnil]
      simp

/-! Claims. -/

/-- Claim C5: with local retention on and a configured cap N ≥ 1, the
retention step keeps the first N entries of the reversed file listing and
deletes the rest, so a successful run leaves at most N plain files in the
staging directory. -/
theorem retention_cap_bounds_file_count (config : Config) (env : Env)
    (hkeep : config.keepLocalBackups = true)
    (hcap : 1 ≤ config.noOfLocalBackups)
    (hok : (backupAndUpload config env).result = Except.ok ()) :
    countFiles (backupAndUpload config env).finalDir ≤ config.noOfLocalBackups := by
  rw [finalDir_of_ok config env hok,
    cleanFs_keep_cap config _ _ _ hkeep (Nat.one_le_iff_ne_zero.mp hcap)]
  exact countFiles_filter_drop _ _

/-- Claim C6: with `keepLocalBackups = false`, once the dump and the upload
have succeeded the retention step deletes the artifact, so no entry of the
final staging listing bears the planned artifact name. -/
theorem ephemeral_mode_deletes_artifact (config : Config) (env : Env)
    (hkeep : config.keepLocalBackups = false)
    (hok : (backupAndUpload config env).result = Except.ok ()) :
    ∀ e ∈ (backupAndUpload config env).finalDir,
      e.name ≠ plannedFileName config env := by
  intro e he
  rw [finalDir_of_ok config env hok] at he
  simp [cleanFs, hkeep] at he
  exact he.2

/-- Claim C8: with local retention on, when no cap is configured (cap 0) or
the plain files do not exceed the cap, the retention step deletes nothing,
and in particular the artifact just produced is still listed. -/
theorem retention_keeps_artifact_when_under_cap (config : Config) (env : Env)
    (hkeep : config.keepLocalBackups = true)
    (hok : (backupAndUpload config env).result = Except.ok ())
    (hcap : config.noOfLocalBackups = 0 ∨
      countFiles (dumpedDir config env) ≤ config.noOfLocalBackups) :
    (backupAndUpload config env).finalDir = dumpedDir config env ∧
    (⟨plannedFileName config env, true⟩ : DirEntry) ∈
      (backupAndUpload config env).finalDir := by
  have hfd := finalDir_of_ok config env hok
  have hid := cleanFs_keep_nodelete config (plannedFileName config env)
    (getBackUpPath config env) (dumpedDir config env) hkeep hcap
  refine ⟨by rw [hfd, hid], ?_⟩
  rw [hfd, hid]
  obtain ⟨hv, hd, hr, hu⟩ := (result_ok_iff config env).mp hok
  simp [dumpedDir, hd, writeFile]

/-- Claim C9: with local retention on and the configured cap equal to 0, the
truthiness check skips the whole trimming branch: the retention step
requests no effect and leaves the staging directory listing unchanged. -/
theorem zero_cap_deletes_nothing (config : Config) (fileName backUpPath : String)
    (dir : List DirEntry) (hkeep : config.keepLocalBackups = true)
    (hzero : config.noOfLocalBackups = 0) :
    cleanFs config fileName backUpPath dir = ([], dir) := by
  simp [cleanFs, hkeep, hzero]

/-- The ways the `mongodb` field fails validation: a falsy (empty) URI
string, or a structured object with falsy database, host or port. -/
def invalidMongoField : MongoValue → Prop
  | .uri s => s = ""
  | .obj m => m.database = "" ∨ m.host = "" ∨ m.port = 0

/-- A configuration with an empty required storage field or an invalid
`mongodb` field fails `isValidConfig`. -/
lemma isValidConfig_false (config : Config)
    (h : config.s3.accessKey = "" ∨ config.s3.secretKey = "" ∨
      config.s3.region = "" ∨ config.s3.bucketName = "" ∨
      invalidMongoField config.mongodb) :
    isValidConfig config = false := by
  rcases h with h | h | h | h | h
  · simp [isValidConfig, strTruthy, h]
  · simp [isValidConfig, strTruthy, h]
  · simp [isValidConfig, strTruthy, h]
  · simp [isValidConfig, strTruthy, h]
  · cases hm : config.mongodb with
    | uri s =>
      rw [hm] at h
      simp only [invalidMongoField] at h
      simp [isValidConfig, hm, MongoValue.truthy, strTruthy, h]
    | obj m =>
      rw [hm] at h
      simp only [invalidMongoField] at h
      rcases h with h | h | h <;> simp [isValidConfig, hm, strTruthy, h]

/-- `prepareFolderStructure` never unlinks anything. -/
lemma unlink_not_mem_prepare (config : Config) (env : Env) (p : String) :
    Effect.unlink p ∉ prepareFolderStructure config env := by
  unfold prepareFolderStructure
  split <;> simp

/-- Claim C3: a configuration missing a required storage field or a valid
database field is rejected with the `Invalid Configuration` error before any
effect: the trace is empty and the staging directory is untouched. -/
theorem invalid_config_rejects_without_effects (config : Config) (env : Env)
    (h : config.s3.accessKey = "" ∨ config.s3.secretKey = "" ∨
      config.s3.region = "" ∨ config.s3.bucketName = "" ∨
      invalidMongoField config.mongodb) :
    backupAndUpload config env =
      ⟨Except.error "Invalid Configuration", [], env.initialDir⟩ := by
  have hv := isValidConfig_false config h
  simp [backupAndUpload, hv]

/-- Claim C7: when the dump stage or the upload stage fails, the run rejects
and the cleanup stage never runs: no unlink effect is requested and the
staging directory stays exactly as the dump attempt left it. -/
theorem failure_skips_cleanup (config : Config) (env : Env)
    (hv : isValidConfig config = true)
    (hfail : env.dumpSucceeds = false ∨ env.readSucceeds = false ∨
      env.uploadSucceeds = false) :
    (∃ msg, (backupAndUpload config env).result = Except.error msg) ∧
    (∀ p, Effect.unlink p ∉ (backupAndUpload config env).effects) ∧
    (backupAndUpload config env).finalDir = dumpedDir config env := by
  by_cases hd : env.dumpSucceeds = true
  · by_cases hr : env.readSucceeds = true
    · by_cases hu : env.uploadSucceeds = true
      · rcases hfail with h | h | h
        · exact absurd (hd.symm.trans h) (by decide)
        · exact absurd (hr.symm.trans h) (by decide)
        · exact absurd (hu.symm.trans h) (by decide)
      · refine ⟨⟨"upload failed", by simp [backupAndUpload, hv, hd, hr, hu]⟩,
          fun p => ?_, by simp [backupAndUpload, hv, hd, hr, hu]⟩
        simp [backupAndUpload, hv, hd, hr, hu, not_or]
        exact unlink_not_mem_prepare config env p
    · refine ⟨⟨"file read failed", by simp [backupAndUpload, hv, hd, hr]⟩,
        fun p => ?_, by simp [backupAndUpload, hv, hd, hr]⟩
      simp [backupAndUpload, hv, hd, hr, not_or]
      exact unlink_not_mem_prepare config env p
  · refine ⟨⟨"dump failed", by simp [backupAndUpload, hv, hd]⟩,
      fun p => ?_, by simp [backupAndUpload, hv, hd]⟩
    simp [backupAndUpload, hv, hd, not_or]
    exact unlink_not_mem_prepare config env p

/-- `jsOrNull` only returns values it was given. -/
lemma jsOrNull_eq_some {o : Option String} {s : String} (h : jsOrNull o = some s) :
    o = some s := by
  cases o with
  | none => simp [jsOrNull] at h
  | some t =>
    by_cases ht : t = ""
    · simp [jsOrNull, ht] at h
    · simp [jsOrNull, ht] at h
      rw [h]

/-- The rendered host token differs from any string that both the raw host
and the string "null" differ from. -/
lemma hostToken_ne (h s : String) (hh : h ≠ s) (hn : ("null" : String) ≠ s) :
    hostToken h ≠ s := by
  unfold hostToken
  split
  · exact hn
  · exact hh

/-- A two-character string is not among the base command tokens, given it is
none of the literal two-character flags nor the host or database values. -/
lemma flag_not_mem_tokens (host port db arch s : String) (h2 : s.length = 2)
    (hsh : s ≠ "-h") (hsd : s ≠ "-d") (hhost : host ≠ s) (hdb : db ≠ s) :
    s ∉ ["mongodump", "-h", host, "--port=" ++ port, "-d", db,
         "--quiet", "--gzip", "--archive=" ++ arch] := by
  intro hmem
  simp only [List.mem_cons, List.not_mem_nil, or_false] at hmem
  rcases hmem with h | h | h | h | h | h | h | h | h
  · subst h; exact absurd h2 (by decide)
  · exact hsh h
  · exact hhost h.symm
  · have hl := congrArg String.length h
    rw [h2, String.length_append,
      show ("--port=" : String).length = 7 from rfl] at hl
    omega
  · exact hsd h
  · exact hdb h.symm
  · subst h; exact absurd h2 (by decide)
  · subst h; exact absurd h2 (by decide)
  · have hl := congrArg String.length h
    rw [h2, String.length_append,
      show ("--archive=" : String).length = 10 from rfl] at hl
    omega

/-- As `flag_not_mem_tokens`, for the username-only command template. -/
lemma flag_not_mem_tokens_u (host port db arch u s : String) (h2 : s.length = 2)
    (hsh : s ≠ "-h") (hsd : s ≠ "-d") (hsu : s ≠ "-u")
    (hhost : host ≠ s) (hdb : db ≠ s) (huv : u ≠ s) :
    s ∉ ["mongodump", "-h", host, "--port=" ++ port, "-d", db, "-u", u,
         "--quiet", "--gzip", "--archive=" ++ arch] := by
  intro hmem
  simp only [List.mem_cons, List.not_mem_nil, or_false] at hmem
  rcases hmem with h | h | h | h | h | h | h | h | h | h | h
  · subst h; exact absurd h2 (by decide)
  · exact hsh h
  · exact hhost h.symm
  · have hl := congrArg String.length h
    rw [h2, String.length_append,
      show ("--port=" : String).length = 7 from rfl] at hl
    omega
  · exact hsd h
  · exact hdb h.symm
  · exact hsu h
  · exact huv h.symm
  · subst h; exact absurd h2 (by decide)
  · subst h; exact absurd h2 (by decide)
  · have hl := congrArg String.length h
    rw [h2, String.length_append,
      show ("--archive=" : String).length = 10 from rfl] at hl
    omega

/-- A two-character string is not the optional `--ssl` suffix token. -/
lemma flag_not_mem_ssl (b : Bool) (s : String) (h2 : s.length = 2) :
    s ∉ (if b then ["--ssl"] else []) := by
  split
  · intro hmem
    rw [List.mem_singleton] at hmem
    subst hmem
    exact absurd h2 (by decide)
  · exact List.not_mem_nil _

/-- A two-character string is not the optional authentication-database
suffix token. -/
lemma flag_not_mem_auth (auth s : String) (h2 : s.length = 2) :
    s ∉ (if strTruthy auth
         then ["--authenticationDatabase=" ++ auth] else []) := by
  split
  · intro hmem
    rw [List.mem_singleton] at hmem
    have hl := congrArg String.length hmem
    rw [h2, String.length_append,
      show ("--authenticationDatabase=" : String).length = 25 from rfl] at hl
    omega
  · exact List.not_mem_nil _

/-- When the username is absent, no two-character string beyond the base
tokens occurs in the built command. -/
lemma flag_not_mem_cmd_of_username_none (m : MongoDBInstance) (path s : String)
    (hu : jsOrNull m.username = none) (h2 : s.length = 2)
    (hsh : s ≠ "-h") (hsd : s ≠ "-d")
    (hhost : (m.hosts.headD ⟨"", 0⟩).host ≠ s)
    (hdb : m.database ≠ s) :
    s ∉ createBackupCommand m path := by
  simp only [createBackupCommand, hu]
  intro hmem
  rw [List.mem_append, List.mem_append] at hmem
  rcases hmem with (h | h) | h
  · exact flag_not_mem_tokens _ _ _ _ _ h2 hsh hsd
      (hostToken_ne _ _ hhost (by intro he; subst he; exact absurd h2 (by decide)))
      hdb h
  · exact flag_not_mem_ssl _ _ h2 h
  · exact flag_not_mem_auth _ _ h2 h

/-- Claim C4: for connections whose host, database and username values are
not themselves flag strings, the built dump command carries both the `-u`
and the `-p` flag exactly when username and password are both present, and
carries `-u` but no `-p` when only the username is present. -/
theorem createBackupCommand_credential_flags (m : MongoDBInstance) (path : String)
    (hdbu : m.database ≠ "-u") (hdbp : m.database ≠ "-p")
    (hhu : (m.hosts.headD ⟨"", 0⟩).host ≠ "-u")
    (hhp : (m.hosts.headD ⟨"", 0⟩).host ≠ "-p")
    (hun : m.username ≠ some "-p") :
    (("-u" ∈ createBackupCommand m path ∧ "-p" ∈ createBackupCommand m path)
      ↔ (jsOrNull m.username ≠ none ∧ jsOrNull m.password ≠ none)) ∧
    ((jsOrNull m.username ≠ none ∧ jsOrNull m.password = none) →
      ("-u" ∈ createBackupCommand m path ∧
       "-p" ∉ createBackupCommand m path)) := by
  cases hu : jsOrNull m.username with
  | none =>
    have hnu : "-u" ∉ createBackupCommand m path :=
      flag_not_mem_cmd_of_username_none m path "-u" hu (by decide) (by decide)
        (by decide) hhu hdbu
    refine ⟨⟨fun h => absurd h.1 hnu, fun h => absurd rfl h.1⟩,
      fun h => absurd rfl h.1⟩
  | some u =>
    have husome : m.username = some u := jsOrNull_eq_some hu
    have huvp : u ≠ "-p" := by
      intro he
      exact hun (he ▸ husome)
    cases hp : jsOrNull m.password with
    | none =>
      have hmu : "-u" ∈ createBackupCommand m path := by
        simp [createBackupCommand, hu, hp]
      have hnp : "-p" ∉ createBackupCommand m path := by
        simp only [createBackupCommand, hu, hp]
        intro hmem
        rw [List.mem_append, List.mem_append] at hmem
        rcases hmem with (h | h) | h
        · exact flag_not_mem_tokens_u _ _ _ _ _ _ (by decide) (by decide)
            (by decide) (by decide) (hostToken_ne _ _ hhp (by decide))
            hdbp huvp h
        · exact flag_not_mem_ssl _ _ (by decide) h
        · exact flag_not_mem_auth _ _ (by decide) h
      refine ⟨⟨fun h => absurd h.2 hnp, fun h => absurd rfl h.2⟩,
        fun _ => ⟨hmu, hnp⟩⟩
    | some p =>
      have hmu : "-u" ∈ createBackupCommand m path := by
        simp [createBackupCommand, hu, hp]
      have hmp : "-p" ∈ createBackupCommand m path := by
        simp [createBackupCommand, hu, hp]
      refine ⟨⟨fun _ => ⟨by simp, by simp⟩, fun _ => ⟨hmu, hmp⟩⟩,
        fun h => absurd h.2 (by simp)⟩

/-- Claim C10: when a password is present but the username is absent, the
built dump command carries neither the `-u` nor the `-p` flag: the password
is silently ignored. -/
theorem createBackupCommand_password_without_username (m : MongoDBInstance)
    (path : String)
    (hu : jsOrNull m.username = none) (_hp : jsOrNull m.password ≠ none)
    (hdbu : m.database ≠ "-u") (hdbp : m.database ≠ "-p")
    (hhu : (m.hosts.headD ⟨"", 0⟩).host ≠ "-u")
    (hhp : (m.hosts.headD ⟨"", 0⟩).host ≠ "-p") :
    "-u" ∉ createBackupCommand m path ∧
    "-p" ∉ createBackupCommand m path :=
  ⟨flag_not_mem_cmd_of_username_none m path "-u" hu (by decide) (by decide)
      (by decide) hhu hdbu,
   flag_not_mem_cmd_of_username_none m path "-p" hu (by decide) (by decide)
      (by decide) hhp hdbp⟩

/-- Claim C1 counterexample: the put-object parameters carry no ACL at all,
so for a configuration with `accessPerm = "public-read"` the put-object ACL
is not the configured-or-private value the claim asserts. -/
theorem uploadParams_acl_counterexample :
    (uploadParams ⟨"ak", "sk", "us-east-1", "public-read", "bkt"⟩
        "/tmp/db.gz" "db.gz").acl ≠
      some (jsOr (S3Config.accessPerm
        ⟨"ak", "sk", "us-east-1", "public-read", "bkt"⟩) "private") := by
  decide

/-- Claim C1 (amended): the put-object call is made with body = the stream
of the local file, key = the generated file name and no ACL setting; the
access-control value — the configured one, or "private" when unset — is
instead passed on the create-bucket call. -/
theorem upload_params_and_bucket_acl (s3Config : S3Config)
    (fullFilePath fileName : String) :
    uploadParams s3Config fullFilePath fileName =
      ⟨s3Config.bucketName, fileName, fullFilePath, none⟩ ∧
    (bucketParams s3Config).acl = jsOr s3Config.accessPerm "private" :=
  ⟨rfl, rfl⟩

/-- Claim C2 counterexample: a structured configuration with non-empty host,
database and storage fields but port 0 is rejected, not accepted: JS
truthiness treats 0 as absent. -/
theorem isValidConfig_port_zero_counterexample :
    ¬ (isValidConfig ⟨true, 0, 0,
        .obj ⟨"db", "localhost", "", "", 0, false, ""⟩,
        ⟨"ak", "sk", "us-east-1", "", "bkt"⟩⟩ = true) := by
  decide

/-- Claim C2 (amended): for a structured configuration with non-empty host,
database name and storage fields, `isValidConfig` accepts exactly when the
port is nonzero — the truthiness check counts port 0 as absent and rejects
it. -/
theorem isValidConfig_structured_port_truthiness (config : Config)
    (m : MongoDBConfig) (hm : config.mongodb = .obj m)
    (hdb : m.database ≠ "") (hhost : m.host ≠ "")
    (hak : config.s3.accessKey ≠ "") (hsk : config.s3.secretKey ≠ "")
    (hrg : config.s3.region ≠ "") (hbk : config.s3.bucketName ≠ "") :
    isValidConfig config = (m.port != 0) := by
  simp [isValidConfig, hm, MongoValue.truthy, strTruthy, hdb, hhost,
    hak, hsk, hrg, hbk]

/-! Concrete example inputs for witness instantiations. -/

/-- A storage configuration with all required fields set and no ACL. -/
def exampleS3 : S3Config := ⟨"ak", "sk", "us-east-1", "", "bkt"⟩

/-- A structured connection with no credentials. -/
def exampleMongo : MongoDBConfig := ⟨"db", "localhost", "", "", 27017, false, ""⟩

/-- Retained-mode configuration with cap 2. -/
def exampleConfigKeep : Config := ⟨true, 2, 0, .obj exampleMongo, exampleS3⟩

/-- Retained-mode configuration with cap 5. -/
def exampleConfigKeepBig : Config := ⟨true, 5, 0, .obj exampleMongo, exampleS3⟩

/-- Retained-mode configuration with no cap configured. -/
def exampleConfigNoCap : Config := ⟨true, 0, 0, .obj exampleMongo, exampleS3⟩

/-- Ephemeral-mode configuration. -/
def exampleConfigDrop : Config := ⟨false, 0, 0, .obj exampleMongo, exampleS3⟩

/-- A configuration whose bucket name is missing. -/
def exampleConfigInvalid : Config :=
  ⟨false, 0, 0, .obj exampleMongo, ⟨"ak", "sk", "us-east-1", "", ""⟩⟩

/-- A stand-in for the external URI parser (never consulted by the
structured-shape examples). -/
def exampleParse : String → MongoDBInstance :=
  fun _ => ⟨"mongodb", none, none, "", false, "", []⟩

/-- An environment for a fully successful run over a staging directory
holding two backup files and a subdirectory. -/
def exampleEnv : Env :=
  ⟨"/proj", "/tmp", "2024-01-01T00-00-00", exampleParse, true,
   [⟨"a.gz", true⟩, ⟨"b.gz", true⟩, ⟨"sub", false⟩], true, true, true, true⟩

/-- As `exampleEnv`, with a failing upload. -/
def exampleEnvUploadFail : Env :=
  ⟨"/proj", "/tmp", "2024-01-01T00-00-00", exampleParse, true,
   [⟨"a.gz", true⟩, ⟨"b.gz", true⟩, ⟨"sub", false⟩], true, true, true, false⟩

/-- A canonical connection with both credentials. -/
def exampleInstanceBoth : MongoDBInstance :=
  ⟨"mongodb", some "alice", some "pw", "db", false, "", [⟨"localhost", 27017⟩]⟩

/-- A canonical connection with a password but no username. -/
def exampleInstancePwOnly : MongoDBInstance :=
  ⟨"mongodb", none, some "pw", "db", false, "", [⟨"localhost", 27017⟩]⟩

/-! Witnesses. -/

/-- Witness for claim C2's theorem at a port-27017 configuration. -/
theorem isValidConfig_structured_port_truthiness_witness :
    (⟨false, 0, 0, .obj exampleMongo, exampleS3⟩ : Config).mongodb
        = .obj exampleMongo ∧
    isValidConfig ⟨false, 0, 0, .obj exampleMongo, exampleS3⟩
        = (exampleMongo.port != 0) :=
  ⟨rfl, isValidConfig_structured_port_truthiness _ exampleMongo rfl
    (by decide) (by decide) (by decide) (by decide) (by decide) (by decide)⟩

/-- Witness for claim C3's theorem at a configuration missing its bucket
name. -/
theorem invalid_config_rejects_without_effects_witness :
    (exampleConfigInvalid.s3.accessKey = "" ∨
      exampleConfigInvalid.s3.secretKey = "" ∨
      exampleConfigInvalid.s3.region = "" ∨
      exampleConfigInvalid.s3.bucketName = "" ∨
      invalidMongoField exampleConfigInvalid.mongodb) ∧
    backupAndUpload exampleConfigInvalid exampleEnv =
      ⟨Except.error "Invalid Configuration", [], exampleEnv.initialDir⟩ :=
  ⟨Or.inr (Or.inr (Or.inr (Or.inl rfl))),
   invalid_config_rejects_without_effects exampleConfigInvalid exampleEnv
     (Or.inr (Or.inr (Or.inr (Or.inl rfl))))⟩

/-- Witness for claim C4's theorem at a connection with both credentials. -/
theorem createBackupCommand_credential_flags_witness :
    (("-u" ∈ createBackupCommand exampleInstanceBoth "/tmp/db.gz" ∧
      "-p" ∈ createBackupCommand exampleInstanceBoth "/tmp/db.gz")
      ↔ (jsOrNull exampleInstanceBoth.username ≠ none ∧
         jsOrNull exampleInstanceBoth.password ≠ none)) ∧
    ((jsOrNull exampleInstanceBoth.username ≠ none ∧
      jsOrNull exampleInstanceBoth.password = none) →
      ("-u" ∈ createBackupCommand exampleInstanceBoth "/tmp/db.gz" ∧
       "-p" ∉ createBackupCommand exampleInstanceBoth "/tmp/db.gz")) :=
  createBackupCommand_credential_flags exampleInstanceBoth "/tmp/db.gz"
    (by decide) (by decide) (by decide) (by decide) (by decide)

/-- Witness for claim C5's theorem: a successful retained run over three
plain files with cap 2 ends with at most 2 plain files. -/
theorem retention_cap_bounds_file_count_witness :
    exampleConfigKeep.keepLocalBackups = true ∧
    1 ≤ exampleConfigKeep.noOfLocalBackups ∧
    (backupAndUpload exampleConfigKeep exampleEnv).result = Except.ok () ∧
    countFiles (backupAndUpload exampleConfigKeep exampleEnv).finalDir ≤
      exampleConfigKeep.noOfLocalBackups :=
  ⟨rfl, by decide, rfl,
   retention_cap_bounds_file_count exampleConfigKeep exampleEnv rfl
     (by decide) rfl⟩

/-- Witness for claim C6's theorem: after a successful ephemeral run no
entry carries the artifact name. -/
theorem ephemeral_mode_deletes_artifact_witness :
    exampleConfigDrop.keepLocalBackups = false ∧
    (backupAndUpload exampleConfigDrop exampleEnv).result = Except.ok () ∧
    ∀ e ∈ (backupAndUpload exampleConfigDrop exampleEnv).finalDir,
      e.name ≠ plannedFileName exampleConfigDrop exampleEnv :=
  ⟨rfl, rfl,
   ephemeral_mode_deletes_artifact exampleConfigDrop exampleEnv rfl rfl⟩

/-- Witness for claim C7's theorem at a failing upload. -/
theorem failure_skips_cleanup_witness :
    isValidConfig exampleConfigKeep = true ∧
    (exampleEnvUploadFail.dumpSucceeds = false ∨
      exampleEnvUploadFail.readSucceeds = false ∨
      exampleEnvUploadFail.uploadSucceeds = false) ∧
    ((∃ msg, (backupAndUpload exampleConfigKeep exampleEnvUploadFail).result
        = Except.error msg) ∧
     (∀ p, Effect.unlink p ∉
        (backupAndUpload exampleConfigKeep exampleEnvUploadFail).effects) ∧
     (backupAndUpload exampleConfigKeep exampleEnvUploadFail).finalDir
        = dumpedDir exampleConfigKeep exampleEnvUploadFail) :=
  ⟨rfl, Or.inr (Or.inr rfl),
   failure_skips_cleanup exampleConfigKeep exampleEnvUploadFail rfl
     (Or.inr (Or.inr rfl))⟩

/-- Witness for claim C8's theorem: three plain files under a cap of 5, the
artifact entry survives. -/
theorem retention_keeps_artifact_when_under_cap_witness :
    exampleConfigKeepBig.keepLocalBackups = true ∧
    (backupAndUpload exampleConfigKeepBig exampleEnv).result = Except.ok () ∧
    (exampleConfigKeepBig.noOfLocalBackups = 0 ∨
      countFiles (dumpedDir exampleConfigKeepBig exampleEnv) ≤
        exampleConfigKeepBig.noOfLocalBackups) ∧
    ((backupAndUpload exampleConfigKeepBig exampleEnv).finalDir
        = dumpedDir exampleConfigKeepBig exampleEnv ∧
     (⟨plannedFileName exampleConfigKeepBig exampleEnv, true⟩ : DirEntry) ∈
       (backupAndUpload exampleConfigKeepBig exampleEnv).finalDir) :=
  ⟨rfl, rfl, Or.inr (by decide),
   retention_keeps_artifact_when_under_cap exampleConfigKeepBig exampleEnv
     rfl rfl (Or.inr (by decide))⟩

/-- Witness for claim C9's theorem at a capless retained configuration. -/
theorem zero_cap_deletes_nothing_witness :
    exampleConfigNoCap.keepLocalBackups = true ∧
    exampleConfigNoCap.noOfLocalBackups = 0 ∧
    cleanFs exampleConfigNoCap "db.gz" "/proj/backups" [⟨"a.gz", true⟩]
      = ([], [⟨"a.gz", true⟩]) :=
  ⟨rfl, rfl,
   zero_cap_deletes_nothing exampleConfigNoCap "db.gz" "/proj/backups"
     [⟨"a.gz", true⟩] rfl rfl⟩

/-- Witness for claim C10's theorem at a password-only connection. -/
theorem createBackupCommand_password_without_username_witness :
    jsOrNull exampleInstancePwOnly.username = none ∧
    jsOrNull exampleInstancePwOnly.password ≠ none ∧
    ("-u" ∉ createBackupCommand exampleInstancePwOnly "/tmp/db.gz" ∧
     "-p" ∉ createBackupCommand exampleInstancePwOnly "/tmp/db.gz") :=
  ⟨rfl, by decide,
   createBackupCommand_password_without_username exampleInstancePwOnly
     "/tmp/db.gz" rfl (by decide) (by decide) (by decide) (by decide)
     (by decide)⟩

end MongodbBackupS3
